import Mathlib

/-!
# Verification of the TIFA type-and-flow analyzer (`tifa.py`)

This file is a shallow embedding of the Python source of TIFA, a static
type-and-flow analyzer for student programs.  Python functions become Lean
functions; mutation of the `Tifa` object becomes explicit state passing; a
Python runtime exception (e.g. `NameError` from an undefined identifier in
the source) becomes an `Except.error`.  Python dictionaries, which preserve
insertion order, become insertion-ordered association lists.

The embedding is written directly from the source: several branches of the
source raise runtime errors (undefined names, missing attributes); those
branches are embedded as the corresponding `PyErr`.
-/

/-- Python runtime errors that the analyzer source can raise at run time. -/
inductive PyErr where
  | nameError
  | attributeError
  | keyError
  | indexError
  | typeError
deriving DecidableEq

/-- Read access `d[k]` / `d.get(k)` / `k in d` on an insertion-ordered
Python dictionary, embedded as an association list. -/
def dictGet {α β : Type} [DecidableEq α] : List (α × β) → α → Option β
  | [], _ => none
  | (k, v) :: rest, key => if k = key then some v else dictGet rest key

/-- `d.get(k, dflt)`-style read with a default. -/
def dictGetD {α β : Type} [DecidableEq α] (d : List (α × β)) (key : α) (dflt : β) : β :=
  (dictGet d key).getD dflt

/-- Write `d[k] = v` on a Python dictionary: update in place when the key is
present (keeping its insertion position), append otherwise. -/
def dictSet {α β : Type} [DecidableEq α] : List (α × β) → α → β → List (α × β)
  | [], key, v => [(key, v)]
  | (k, w) :: rest, key, v =>
    if k = key then (k, v) :: rest else (k, w) :: dictSet rest key v

/-- Helper for `splitOnChar`: accumulates the current component in reverse. -/
def splitOnCharAux (c : Char) : List Char → List Char → List String
  | [], acc => [String.mk acc.reverse]
  | x :: xs, acc =>
    if x = c then String.mk acc.reverse :: splitOnCharAux c xs []
    else splitOnCharAux c xs (x :: acc)

/-- Python `s.split(sep)` for a one-character separator. -/
def splitOnChar (c : Char) (s : String) : List String :=
  splitOnCharAux c s.data []

/-- Python `sep.join(parts)`. -/
def strJoin (sep : String) : List String → String
  | [] => ""
  | [x] => x
  | x :: xs => x ++ sep ++ strJoin sep xs

/-- Python `s.rsplit(sep, maxsplit=1)[-1]`: the part after the last
separator, or the whole string when the separator does not occur. -/
def rsplitLast (c : Char) (s : String) : String :=
  (splitOnChar c s).getLastD s

/-- The exact Python class of a tracked value, as `type(x)` returns it.
`typeC` is the metaclass `type` (the class of every `Type` subclass object
itself), and `pyListC` is the builtin `list` class (the class of a raw
Python list of types, which `merge_types` produces for tuples). -/
inductive PyCls where
  | unknownC
  | recursedC
  | functionC
  | numC
  | noneC
  | boolC
  | strC
  | fileC
  | timeC
  | dayC
  | tupleC
  | listC
  | setC
  | generatorC
  | dictC
  | moduleC
  | litNumC
  | typeC
  | pyListC
deriving DecidableEq

/-- The Python values that flow through the analyzer's type channels.

The first group embeds the `Type` subclasses of the source
(`UnknownType`, `RecursedType`, `FunctionType`, `NumType`, `NoneType`,
`BoolType`, `StrType`, `FileType`, `TimeType`, `DayType`, `TupleType`,
`ListType`, `SetType`, `GeneratorType`, `DictType`, `ModuleType`).
The source also lets three kinds of non-`Type` Python objects flow through
the very same channels, so they are constructors here as well:
`litNum` embeds a `LiteralNum` wrapper, `pyClass` embeds a class object
(the operator-table rules `NumType_any` etc. return the class itself, not
an instance), and `pyList` embeds a raw Python list of types (which
`merge_types` returns for two tuples).

`FunctionType.definition` (a callable) is not modelled: the source defines
no `visit_Call`, so no modelled code path ever invokes it.  A `DictType`
stores literal-keyed value lists and the generic value type in the single
attribute `values`; here the list form is the separate field
`literalValues`. -/
inductive Ty where
  | unknown
  | recursed
  | function (name : String)
  | num
  | noneType
  | bool
  | str
  | file
  | time
  | day
  | tuple (subtypes : List Ty)
  | list (subtype : Ty) (empty : Bool)
  | setT (subtype : Ty) (empty : Bool)
  | generator (subtype : Ty) (empty : Bool)
  | dict (empty : Bool) (literals : Option (List Ty)) (keys : Option Ty)
         (values : Option Ty) (literalValues : List Ty)
  | module (name : String) (submodules : List (String × Ty)) (fields : List (String × Ty))
  | litNum (value : Int)
  | pyClass (cls : PyCls)
  | pyList (elems : List Ty)

/-- Python `type(x)` on a tracked value: the exact class, not honouring
subclassing (so a `SetType` value is `setC`, not `listC`). -/
def pyType : Ty → PyCls
  | .unknown => .unknownC
  | .recursed => .recursedC
  | .function _ => .functionC
  | .num => .numC
  | .noneType => .noneC
  | .bool => .boolC
  | .str => .strC
  | .file => .fileC
  | .time => .timeC
  | .day => .dayC
  | .tuple _ => .tupleC
  | .list _ _ => .listC
  | .setT _ _ => .setC
  | .generator _ _ => .generatorC
  | .dict _ _ _ _ _ => .dictC
  | .module _ _ _ => .moduleC
  | .litNum _ => .litNumC
  | .pyClass _ => .typeC
  | .pyList _ => .pyListC

/-- `isinstance(x, UnknownType)`: only `UnknownType` instances qualify
(the class has no subclasses in the source). -/
def isUnknownTy : Ty → Bool
  | .unknown => true
  | _ => false

/-- `isinstance(x, (ListType, SetType, GeneratorType))` — and also
`isinstance(x, (GeneratorType, ListType))`, since `SetType` and
`GeneratorType` are subclasses of `ListType` in the source. -/
def isListInstance : Ty → Bool
  | .list _ _ => true
  | .setT _ _ => true
  | .generator _ _ => true
  | _ => false

/-- The `subtype` attribute, present exactly on `ListType` and its
subclasses `SetType` and `GeneratorType`. -/
def Ty.subtypeAttr : Ty → Option Ty
  | .list s _ => some s
  | .setT s _ => some s
  | .generator s _ => some s
  | _ => none

mutual
/-- `Type.clone` and its overrides, exactly as dispatched in the source:

* the base `Type.clone` returns `self.__class__()`, a fresh
  default-constructed instance — so cloning a `FunctionType` resets its
  name to `"*Anonymous"`, cloning a `ModuleType` yields the empty
  `"*UnknownModule"`, and cloning a `DictType` yields `DictType()`
  (whose default is `empty=False` with no key/value information);
* `TupleType.clone` clones each member of `subtypes`;
* `ListType.clone` returns `ListType(self.subtype.clone(), self.empty)`,
  and `SetType`/`GeneratorType` inherit it unchanged — so cloning a set or
  generator produces a `ListType` value;
* `LiteralNum`, class objects and raw lists have no `clone` in the source;
  no modelled code path clones them, and they are mapped to themselves. -/
def clone : Ty → Ty
  | .unknown => .unknown
  | .recursed => .recursed
  | .function _ => .function "*Anonymous"
  | .num => .num
  | .noneType => .noneType
  | .bool => .bool
  | .str => .str
  | .file => .file
  | .time => .time
  | .day => .day
  | .tuple ts => .tuple (cloneList ts)
  | .list s e => .list (clone s) e
  | .setT s e => .list (clone s) e
  | .generator s e => .list (clone s) e
  | .dict _ _ _ _ _ => .dict false none none none []
  | .module _ _ _ => .module "*UnknownModule" [] []
  | .litNum n => .litNum n
  | .pyClass c => .pyClass c
  | .pyList ts => .pyList ts

/-- Clones every element of a list of types (the comprehension inside
`TupleType.clone`). -/
def cloneList : List Ty → List Ty
  | [] => []
  | t :: ts => clone t :: cloneList ts
end

mutual
/-- `are_types_equal(left, right)` from the source, on `Option Ty` so that
Python `None` arguments are representable.  The `None` cases are the
function's first branch; the non-`None` body is
`are_types_equal_some`. -/
def are_types_equal : Option Ty → Option Ty → Except PyErr Bool
  | none, _ => .ok false
  | some _, none => .ok false
  | some left, some right => are_types_equal_some left right
termination_by l r => sizeOf l + sizeOf r

/-- The body of `are_types_equal` for two non-`None` arguments.  The
branch structure follows the source exactly:

* `UnknownType` on either side is unequal;
* values of different exact classes (`type(left) != type(right)`) are
  unequal;
* list-like values are equal when either is empty, else their subtypes are
  compared recursively;
* the tuple branch reads `left.empty`, an attribute `TupleType` does not
  have — an `AttributeError` in the source, embedded as an error;
* dictionaries: both-empty is equal; both-literal compares literal lists
  and value lists pairwise; one-literal is unequal; both-generic compares
  key and value types (through the `None`-aware entry point);
* every other same-class pair (numbers, strings, functions, modules,
  literals, class objects, raw lists, …) is equal. -/
def are_types_equal_some (left right : Ty) : Except PyErr Bool :=
  if isUnknownTy left || isUnknownTy right then .ok false
  else if pyType left ≠ pyType right then .ok false
  else
    match left, right with
    | .list ls le, .list rs re =>
      if le || re then .ok true else are_types_equal_some ls rs
    | .setT ls le, .setT rs re =>
      if le || re then .ok true else are_types_equal_some ls rs
    | .generator ls le, .generator rs re =>
      if le || re then .ok true else are_types_equal_some ls rs
    | .tuple _, .tuple _ => .error .attributeError
    | .dict le llit lk lv llv, .dict re rlit rk rv rlv =>
      if le || re then .ok true
      else
        match llit, rlit with
        | some ll, some rl =>
          if ll.length ≠ rl.length then .ok false
          else do
            let lits ← are_types_equal_zip ll rl
            if !lits then .ok false
            else do
              let vals ← are_types_equal_zip llv rlv
              if !vals then .ok false else .ok true
        | some _, none => .ok false
        | none, some _ => .ok false
        | none, none => do
          let keys_equal ← are_types_equal lk rk
          let values_equal ← are_types_equal lv rv
          .ok (keys_equal && values_equal)
    | _, _ => .ok true
termination_by sizeOf left + sizeOf right

/-- The `for l, r in zip(...)` loops of `are_types_equal`: pairwise
comparison, truncating at the shorter list, failing fast. -/
def are_types_equal_zip : List Ty → List Ty → Except PyErr Bool
  | [], _ => .ok true
  | _ :: _, [] => .ok true
  | a :: xs, b :: ys => do
    let e ← are_types_equal_some a b
    if e then are_types_equal_zip xs ys else .ok false
termination_by l r => sizeOf l + sizeOf r
end

/-- `merge_types(left, right)` from the source.  The Python function falls
off the end (returning `None`) when `left` is not list-like and not a
tuple; for two tuples it returns the raw concatenation
`left.subtypes + right.subtypes` — a Python list, not a `TupleType`.  When
`right` lacks the accessed attribute (`subtype` resp. `subtypes`), the
source raises `AttributeError`. -/
def merge_types (left right : Ty) : Except PyErr (Option Ty) :=
  match left with
  | .list s e | .setT s e | .generator s e =>
    if e then
      match right.subtypeAttr with
      | some rs => .ok (some rs)
      | none => .error .attributeError
    else .ok (some (clone s))
  | .tuple ts =>
    match right with
    | .tuple ts2 => .ok (some (.pyList (ts ++ ts2)))
    | _ => .error .attributeError
  | _ => .ok none

/-- The result-type rule signature of the binary-operator table: a pure
function of the two operand values. -/
def BinRule : Type := Ty → Ty → Except PyErr (Option Ty)

/-- `NumType_any = lambda *x: NumType` — note: the class object, not an
instance. -/
def NumType_any : BinRule := fun _ _ => .ok (some (.pyClass .numC))

/-- `StrType_any = lambda *x: StrType` — the class object. -/
def StrType_any : BinRule := fun _ _ => .ok (some (.pyClass .strC))

/-- `BoolType_any = lambda *x: BoolType` — the class object. -/
def BoolType_any : BinRule := fun _ _ => .ok (some (.pyClass .boolC))

/-- `merge_types` used as a table rule. -/
def mergeRule : BinRule := fun l r => merge_types l r

/-- `lambda l, r: l`. -/
def leftRule : BinRule := fun l _ => .ok (some l)

/-- `lambda l, r: r`. -/
def rightRule : BinRule := fun _ r => .ok (some r)

/-- The binary operator node kinds that key `VALID_BINOP_TYPES`. -/
inductive Op where
  | add
  | sub
  | div
  | floorDiv
  | mult
  | pow
  | mod
  | lshift
  | rshift
  | bitOr
  | bitXor
  | bitAnd
deriving DecidableEq

/-- `VALID_BINOP_TYPES`: operator → left class → right class → rule, as
nested insertion-ordered dictionaries keyed by exact classes. -/
def VALID_BINOP_TYPES : Op → List (PyCls × List (PyCls × BinRule))
  | .add => [(.numC, [(.numC, NumType_any)]),
             (.strC, [(.strC, StrType_any)]),
             (.listC, [(.listC, mergeRule)]),
             (.tupleC, [(.tupleC, mergeRule)])]
  | .sub => [(.numC, [(.numC, NumType_any)]),
             (.setC, [(.setC, mergeRule)])]
  | .div => [(.numC, [(.numC, NumType_any)])]
  | .floorDiv => [(.numC, [(.numC, NumType_any)])]
  | .mult => [(.numC, [(.numC, NumType_any), (.strC, StrType_any),
                       (.listC, rightRule), (.tupleC, rightRule)]),
              (.strC, [(.numC, StrType_any)]),
              (.listC, [(.numC, leftRule)]),
              (.tupleC, [(.numC, leftRule)])]
  | .pow => [(.numC, [(.numC, NumType_any)])]
  | .mod => [(.numC, [(.numC, NumType_any)])]
  | .lshift => [(.numC, [(.numC, NumType_any)])]
  | .rshift => [(.numC, [(.numC, NumType_any)])]
  | .bitOr => [(.numC, [(.numC, NumType_any)]),
               (.boolC, [(.numC, NumType_any), (.boolC, BoolType_any)]),
               (.setC, [(.setC, mergeRule)])]
  | .bitXor => [(.numC, [(.numC, NumType_any)]),
                (.boolC, [(.numC, NumType_any), (.boolC, BoolType_any)]),
                (.setC, [(.setC, mergeRule)])]
  | .bitAnd => [(.numC, [(.numC, NumType_any)]),
                (.boolC, [(.numC, NumType_any), (.boolC, BoolType_any)]),
                (.setC, [(.setC, mergeRule)])]

/-- The two nested `in`/`[]` lookups a binary-operator visit performs on
`VALID_BINOP_TYPES` once the operator itself is found. -/
def binopLookup (op : Op) (leftCls rightCls : PyCls) : Option BinRule :=
  match dictGet (VALID_BINOP_TYPES op) leftCls with
  | none => none
  | some inner => dictGet inner rightCls

/-- `StrType.fields`: the string-method table.  Every entry is built as
`FunctionType('methodname', returns=SomeType())` — the method name is
passed *positionally*, landing in the `definition` parameter, so `name`
keeps its default `"*Anonymous"` and the `returns` shorthand machinery is
skipped (it only runs when `definition is None`). -/
def StrType_fields : List (String × Ty) :=
  [("capitalize", .function "*Anonymous"), ("center", .function "*Anonymous"),
   ("expandtabs", .function "*Anonymous"), ("join", .function "*Anonymous"),
   ("ljust", .function "*Anonymous"), ("lower", .function "*Anonymous"),
   ("lstrip", .function "*Anonymous"), ("replace", .function "*Anonymous"),
   ("rjust", .function "*Anonymous"), ("rstrip", .function "*Anonymous"),
   ("strip", .function "*Anonymous"), ("swapcase", .function "*Anonymous"),
   ("title", .function "*Anonymous"), ("translate", .function "*Anonymous"),
   ("upper", .function "*Anonymous"), ("zfill", .function "*Anonymous"),
   ("count", .function "*Anonymous"), ("find", .function "*Anonymous"),
   ("rfind", .function "*Anonymous"), ("index", .function "*Anonymous"),
   ("rindex", .function "*Anonymous"), ("startswith", .function "*Anonymous"),
   ("endswith", .function "*Anonymous"), ("isalnum", .function "*Anonymous"),
   ("isalpha", .function "*Anonymous"), ("isdigit", .function "*Anonymous"),
   ("islower", .function "*Anonymous"), ("isspace", .function "*Anonymous"),
   ("istitle", .function "*Anonymous"), ("isupper", .function "*Anonymous"),
   ("rsplit", .function "*Anonymous"), ("split", .function "*Anonymous"),
   ("splitlines", .function "*Anonymous")]

/-- `FileType.fields` — again built with the method name in the
positional `definition` slot, so `name` is `"*Anonymous"`. -/
def FileType_fields : List (String × Ty) :=
  [("close", .function "*Anonymous"), ("read", .function "*Anonymous"),
   ("readlines", .function "*Anonymous")]

/-- The process-wide `MODULES` registry.  These entries use the `name=`
keyword, so the function names are retained.  The `math` table writes the
`'acos'` key twice with identical values; a Python dict literal keeps a
single entry. -/
def MODULES : List (String × Ty) :=
  [("matplotlib", .module "matplotlib"
      [("pyplot", .module "pyplot" []
          [("plot", .function "plot"), ("hist", .function "hist"),
           ("scatter", .function "scatter"), ("show", .function "show"),
           ("xlabel", .function "xlabel"), ("ylabel", .function "ylabel"),
           ("title", .function "title")])] []),
   ("pprint", .module "pprint" [] [("pprint", .function "pprint")]),
   ("random", .module "random" [] [("randint", .function "randint")]),
   ("turtle", .module "turtle" []
      [("forward", .function "forward"), ("backward", .function "backward"),
       ("color", .function "color"), ("right", .function "right"),
       ("left", .function "left")]),
   ("parking", .module "parking" []
      [("Time", .function "Time"), ("now", .function "now"),
       ("Day", .function "Day"), ("today", .function "today")]),
   ("math", .module "math" []
      [("ceil", .function "ceil"), ("copysign", .function "copysign"),
       ("fabs", .function "fabs"), ("factorial", .function "factorial"),
       ("floor", .function "floor"), ("fmod", .function "fmod"),
       ("frexp", .function "frexp"), ("fsum", .function "fsum"),
       ("gcd", .function "gcd"), ("isclose", .function "isclose"),
       ("isfinite", .function "isfinite"), ("isinf", .function "isinf"),
       ("isnan", .function "isnan"), ("ldexp", .function "ldexp"),
       ("modf", .function "modf"), ("trunc", .function "trunc"),
       ("log", .function "log"), ("log1p", .function "log1p"),
       ("log2", .function "log2"), ("log10", .function "log10"),
       ("pow", .function "pow"), ("sqrt", .function "sqrt"),
       ("acos", .function "acos"), ("sin", .function "sin"),
       ("cos", .function "cos"), ("tan", .function "tan"),
       ("asin", .function "asin"), ("atan", .function "atan"),
       ("atan2", .function "atan2"), ("hypot", .function "hypot"),
       ("degrees", .function "degrees"), ("radians", .function "radians"),
       ("sinh", .function "sinh"), ("cosh", .function "cosh"),
       ("tanh", .function "tanh"), ("asinh", .function "asinh"),
       ("acosh", .function "acosh"), ("atanh", .function "atanh"),
       ("erf", .function "erf"), ("erfc", .function "erfc"),
       ("gamma", .function "gamma"), ("lgamma", .function "lgamma"),
       ("pi", .num), ("e", .num), ("tau", .num), ("inf", .num),
       ("nan", .num)])]

/-- The process-wide `BUILTINS` registry.  All entries use the `name=`
keyword.  The source dict literal writes the key `"list"` twice (once with
the `ListType` sequence constructor, once — under the comment "Set
Functions" — with the `SetType` one); a Python dict keeps one entry whose
value is the second `FunctionType(name="list", ...)`. -/
def BUILTINS : List (String × Ty) :=
  [("print", .function "print"), ("int", .function "int"),
   ("abs", .function "abs"), ("float", .function "float"),
   ("len", .function "len"), ("ord", .function "ord"),
   ("pow", .function "pow"), ("round", .function "round"),
   ("sum", .function "sum"), ("bool", .function "bool"),
   ("all", .function "all"), ("any", .function "any"),
   ("isinstance", .function "isinstance"), ("input", .function "input"),
   ("str", .function "str"), ("chr", .function "chr"),
   ("repr", .function "repr"), ("open", .function "open"),
   ("map", .function "map"), ("list", .function "list"),
   ("dict", .function "dict"), ("sorted", .function "sorted"),
   ("reversed", .function "reversed"), ("filter", .function "filter"),
   ("range", .function "range"), ("dir", .function "dir"),
   ("max", .function "max"), ("min", .function "min"),
   ("zip", .function "zip")]

/-- A source position; the source's Position dict
`{'column': node.col_offset, 'line': node.lineno}`. -/
structure Pos where
  line : Nat
  column : Nat
deriving DecidableEq

/-- The free-form payload dictionary of a reported issue.  Only the keys
the source actually writes are modelled; an `Option` value of `none`
means the key is absent from the dict. -/
structure IssueData where
  name : Option String := none
  position : Option Pos := none
  type : Option Ty := none
  old : Option Ty := none
  new : Option Ty := none

/-- A `State`: one snapshot of a variable.  An inductive rather than a
structure because `trace` recursively holds previous `State`s.  Field
order follows `State.__init__`:
`name, trace, type, method, position, over_position, read, set, over`
(with the three flags being the strings `'yes'`/`'no'`/`'maybe'`). -/
inductive State where
  | mk (name : String) (trace : List State) (type : Ty) (method : String)
       (position : Pos) (over_position : Option Pos)
       (read : String) (set : String) (over : String)

/-- Projection: `state.name`. -/
def State.name : State → String
  | .mk n _ _ _ _ _ _ _ _ => n

/-- Projection: `state.trace`. -/
def State.trace : State → List State
  | .mk _ t _ _ _ _ _ _ _ => t

/-- Projection: `state.type`. -/
def State.type : State → Ty
  | .mk _ _ ty _ _ _ _ _ _ => ty

/-- Projection: `state.method`. -/
def State.method : State → String
  | .mk _ _ _ m _ _ _ _ _ => m

/-- Projection: `state.position`. -/
def State.position : State → Pos
  | .mk _ _ _ _ p _ _ _ _ => p

/-- Projection: `state.over_position`. -/
def State.over_position : State → Option Pos
  | .mk _ _ _ _ _ op _ _ _ => op

/-- Projection: `state.read`. -/
def State.read : State → String
  | .mk _ _ _ _ _ _ r _ _ => r

/-- Projection: `state.set`. -/
def State.set : State → String
  | .mk _ _ _ _ _ _ _ s _ => s

/-- Projection: `state.over`. -/
def State.over : State → String
  | .mk _ _ _ _ _ _ _ _ o => o

/-- Attribute assignment `state.type = ...`. -/
def State.setType : State → Ty → State
  | .mk n t _ m p op r s o, ty => .mk n t ty m p op r s o

/-- Attribute assignment `state.read = ...`. -/
def State.setRead : State → String → State
  | .mk n t ty m p op _ s o, r => .mk n t ty m p op r s o

/-- Attribute assignment `state.set = ...`. -/
def State.setSet : State → String → State
  | .mk n t ty m p op r _ o, s => .mk n t ty m p op r s o

/-- `State.copy(self, method, position)`.  The source body reads
`state.read`, `state.set`, `state.over` and `state.over_position`, but no
name `state` is in scope there (neither locally nor at module level), so
every call raises `NameError`. -/
def State.copy (_self : State) (_method : String) (_position : Pos) :
    Except PyErr State :=
  .error .nameError

/-- An `Identifier`: the result of a scope lookup.  The source attribute
`exists` keeps its name via French quotes (it is a Lean keyword).  The
source's default for `state` is the empty string `""`; it is embedded as
`none`. -/
structure Identifier where
  «exists» : Bool
  in_scope : Bool := false
  scoped_name : String := "UNKNOWN"
  state : Option State := none

/-- The report object: `success`, an optional `error` payload, the
issue-kind → records dictionary, the `variables` map (the whole per-path
`name_map`, as assigned by `process_ast`), and the
`top_level_variables` key, which exists only once
`_collect_top_level_varaibles` has run (`none` = key absent). -/
structure Report where
  success : Bool
  error : Option String
  issues : List (String × List IssueData)
  «variables» : List (Nat × List (String × State))
  top_level_variables : Option (List (String × State))

/-- The mutable fields of a `Tifa` analyzer object — exactly the fields
`_reset` initializes, plus `report`.  (`self.source`, set only by
`process_code` and never read afterwards, is left out.)
`node_chain` holds the positions of the AST nodes currently being
visited, which is all `locate` consumes;
`definition_chain` is never populated in the source. -/
structure Tifa where
  path_id : Nat
  scope_id : Nat
  ast_id : Nat
  path_names : List String
  scope_names : List String
  node_chain : List Pos
  scope_chain : List Nat
  path_chain : List Nat
  name_map : List (Nat × List (String × State))
  definition_chain : List Unit
  path_parents : List (Nat × Nat)
  report : Report

/-- `Tifa._error_report(error)`: an unsuccessful report.  The source dict
has no `top_level_variables` key. -/
def Tifa._error_report (error : String) : Report :=
  { success := false, error := some error, issues := [], «variables» := [],
    top_level_variables := none }

/-- `Tifa._initialize_report()`: a successful report with every issue kind
present, in source order, mapped to an empty list. -/
def Tifa._init_report : Report :=
  { success := true, error := none,
    issues := [("Parser Failure", []), ("Unconnected blocks", []),
      ("Empty Body", []), ("Malformed Conditional", []),
      ("Unnecessary Pass", []), ("Unread variables", []),
      ("Undefined variables", []), ("Possibly undefined variables", []),
      ("Overwritten variables", []), ("Append to non-list", []),
      ("Used iteration list", []), ("Unused iteration variable", []),
      ("Non-list iterations", []), ("Empty iterations", []),
      ("Type changes", []), ("Iteration variable is iteration list", []),
      ("Unknown functions", []), ("Not a function", []),
      ("Recursive Call", []), ("Incorrect Arity", []),
      ("Action after return", []), ("Incompatible types", []),
      ("Return outside function", []), ("Read out of scope", []),
      ("Write out of scope", []), ("Aliased built-in", []),
      ("Method not in Type", []), ("Submodule not found", []),
      ("Module not found", [])],
    «variables» := [], top_level_variables := none }

/-- `Tifa.locate()`: the position of the node on top of `node_chain`
(`self.node_chain[-1]`); `IndexError` when the chain is empty. -/
def Tifa.locate (self : Tifa) : Except PyErr Pos :=
  match self.node_chain.getLast? with
  | some p => .ok p
  | none => .error .indexError

/-- `Tifa.report_issue(issue, data)`: add `position` when the payload has
none, then append the payload to the issue kind's record list
(`KeyError` when the kind is not a key of the issues dict). -/
def Tifa.report_issue (self : Tifa) (issue : String) (data : IssueData) :
    Except PyErr Tifa := do
  let data ←
    if data.position.isNone then do
      let pos ← self.locate
      pure { data with position := some pos }
    else pure data
  match dictGet self.report.issues issue with
  | none => .error .keyError
  | some records =>
    .ok { self with report :=
      { self.report with
        issues := dictSet self.report.issues issue (records ++ [data]) } }

/-- `Tifa._reset()`: reinitialize every run field. -/
def Tifa._reset (self : Tifa) : Tifa :=
  { self with
    path_id := 0, scope_id := 0, ast_id := 0,
    path_names := ["*Module"], scope_names := ["*Module"],
    node_chain := [],
    scope_chain := [0], path_chain := [0],
    name_map := [(0, [])],
    definition_chain := [], path_parents := [] }

/-- `Tifa._scope_chain_str(name)`: the scope chain joined by `"/"`, plus
`"/" + name` when `name` is truthy (a non-`None`, non-empty string). -/
def Tifa._scope_chain_str (self : Tifa) (name : Option String) : String :=
  match name with
  | some n =>
    if n ≠ "" then strJoin "/" (self.scope_chain.map toString) ++ "/" ++ n
    else strJoin "/" (self.scope_chain.map toString)
  | none => strJoin "/" (self.scope_chain.map toString)

/-- The inner `for path_id in self.path_chain` loop of
`find_variable_scope`: look the candidate key up in each open path's map
(`KeyError` when a path id is missing from `name_map`). -/
def Tifa.find_scope_paths (self : Tifa) (full_name : String) :
    List Nat → Except PyErr (Option State)
  | [] => .ok none
  | path_id :: rest =>
    match dictGet self.name_map path_id with
    | none => .error .keyError
    | some path =>
      match dictGet path full_name with
      | some st => .ok (some st)
      | none => self.find_scope_paths full_name rest

/-- The outer `for scope_index, scope in enumerate(self.scope_chain)` loop
of `find_variable_scope`.  The candidate key is
`"/".join(map(str, self.scope_chain[:scope_index])) + "/" + name` — note
the slice stops *before* `scope_index`, so the candidate never contains
the scope being examined. -/
def Tifa.find_scope_go (self : Tifa) (name : String) :
    Nat → List Nat → Except PyErr Identifier
  | _, [] => .ok { «exists» := false }
  | scope_index, _scope :: restScopes => do
    let full_name :=
      strJoin "/" ((self.scope_chain.take scope_index).map toString) ++ "/" ++ name
    match ← self.find_scope_paths full_name self.path_chain with
    | some st =>
      .ok { «exists» := true, in_scope := scope_index == 0,
            scoped_name := full_name, state := some st }
    | none => self.find_scope_go name (scope_index + 1) restScopes

/-- `Tifa.find_variable_scope(name)`. -/
def Tifa.find_variable_scope (self : Tifa) (name : String) :
    Except PyErr Identifier :=
  self.find_scope_go name 0 self.scope_chain

/-- The inner key loop of `find_variable_out_of_scope`: compare the bare
name against each key's last `/`-component. -/
def find_out_keys (name : String) : List (String × State) → Option Identifier
  | [] => none
  | (full_name, st) :: rest =>
    let unscoped_name := rsplitLast '/' full_name
    if name = unscoped_name then
      some { «exists» := true, in_scope := false,
             scoped_name := unscoped_name, state := some st }
    else find_out_keys name rest

/-- The outer path loop of `find_variable_out_of_scope`, in `name_map`
insertion order. -/
def find_out_paths (name : String) :
    List (Nat × List (String × State)) → Identifier
  | [] => { «exists» := false }
  | (_, path) :: rest =>
    match find_out_keys name path with
    | some i => i
    | none => find_out_paths name rest

/-- `Tifa.find_variable_out_of_scope(name)`. -/
def Tifa.find_variable_out_of_scope (self : Tifa) (name : String) : Identifier :=
  find_out_paths name self.name_map

/-- Python `==` between a `str` and an `int`: always `False` (no
coercion in Python 3). -/
def pyEqStrNat (_ : String) (_ : Nat) : Bool := false

/-- `Tifa.in_scope(full_name, scope_chain)` (a static method): compare the
key's scope components (a list of *strings*) against the reversed scope
chain (a list of *ints*) with Python list equality — elementwise `==`
between a string and an int, which can never hold. -/
def Tifa.in_scope (full_name : String) (scope_chain : List Nat) : Bool :=
  let name_scopes := (splitOnChar '/' full_name).dropLast
  let checking_scopes := scope_chain.reverse
  name_scopes.length == checking_scopes.length &&
    (List.zip name_scopes checking_scopes).all fun p => pyEqStrNat p.1 p.2

/-- `Tifa.trace_state(state, method)`: `state.copy(method, self.locate())`
— `locate` is evaluated first, then `State.copy` (which always raises, see
`State.copy`). -/
def Tifa.trace_state (self : Tifa) (state : State) (method : String) :
    Except PyErr State := do
  let pos ← self.locate
  state.copy method pos

/-- The loop body of `_finish_scope` over the variables of the first open
path.  When a variable's key passes `in_scope` (which, see `Tifa.in_scope`,
never happens), an `over = 'yes'` flag reports "Overwritten variables"
at the recorded `over_position` and a `read = 'no'` flag reports
"Unread variables" (whose payload has no position, so `report_issue`
would call `locate`). -/
def Tifa.finish_scope_go : Tifa → List (String × State) → Except PyErr Tifa
  | self, [] => .ok self
  | self, (name, state) :: rest => do
    let self ←
      if Tifa.in_scope name self.scope_chain then do
        let self ←
          if state.over = "yes" then
            self.report_issue "Overwritten variables"
              { name := some state.name, position := state.over_position }
          else pure self
        if state.read = "no" then
          self.report_issue "Unread variables"
            { name := some state.name, type := some state.type }
        else pure self
      else pure self
    Tifa.finish_scope_go self rest

/-- `Tifa._finish_scope()`. -/
def Tifa._finish_scope (self : Tifa) : Except PyErr Tifa := do
  let path_id ←
    match self.path_chain.head? with
    | some p => pure p
    | none => .error .indexError
  match dictGet self.name_map path_id with
  | none => .error .keyError
  | some vars => Tifa.finish_scope_go self vars

/-- `Tifa.store_variable(name, type)`.  The fresh-variable branch records
`State(name, [], type, 'store', locate(), read='no', set='yes', over='no')`
under the fully scope-qualified key.  The existing-variable branch first
calls `trace_state`, which always raises `NameError` (see `State.copy`);
its remaining lines — the "Write out of scope" and "Type changes" checks
and the overwrite marking, whose `position` is itself an undefined name in
the source — are embedded but unreachable. -/
def Tifa.store_variable (self : Tifa) (name : String) (type : Ty) :
    Except PyErr (State × Tifa) := do
  let full_name := self._scope_chain_str (some name)
  let current_path ←
    match self.path_chain.head? with
    | some p => pure p
    | none => .error .indexError
  let «variable» ← self.find_variable_scope name
  if !«variable».«exists» then do
    let pos ← self.locate
    let new_state : State := .mk name [] type "store" pos none "no" "yes" "no"
    match dictGet self.name_map current_path with
    | none => .error .keyError
    | some path =>
      let nm := dictSet self.name_map current_path (dictSet path full_name new_state)
      .ok (new_state, { self with name_map := nm })
  else do
    let vstate ←
      match «variable».state with
      | some st => pure st
      | none => .error .attributeError
    let new_state ← self.trace_state vstate "store"
    let self ←
      if !«variable».in_scope then
        self.report_issue "Write out of scope" { name := some name }
      else pure self
    let teq ← are_types_equal (some type) (some vstate.type)
    let self ←
      if !teq then
        self.report_issue "Type changes"
          { name := some name, old := some vstate.type, new := some type }
      else pure self
    let new_state := new_state.setType type
    let new_state ←
      if vstate.set = "yes" && vstate.read = "no" then
        .error .nameError
      else
        pure ((new_state.setSet "yes").setRead "no")
    match dictGet self.name_map current_path with
    | none => .error .keyError
    | some path =>
      let nm := dictSet self.name_map current_path (dictSet path full_name new_state)
      .ok (new_state, { self with name_map := nm })

/-- `Tifa.load_variable(name)`.  The absent-variable branch decides
between "Read out of scope" and "Undefined variables" via the
out-of-scope scan, then records a fresh
`State(name, [], UnknownType(), 'load', locate(), read='yes', set='no',
over='no')`.  The existing-variable branch first calls `trace_state`,
which always raises `NameError`; its remaining lines (including the final
store through the undefined name `newState` when the variable is in
scope) are embedded but unreachable. -/
def Tifa.load_variable (self : Tifa) (name : String) :
    Except PyErr (State × Tifa) := do
  let full_name := self._scope_chain_str (some name)
  let current_path ←
    match self.path_chain.head? with
    | some p => pure p
    | none => .error .indexError
  let «variable» ← self.find_variable_scope name
  if !«variable».«exists» then do
    let out_of_scope_var := self.find_variable_out_of_scope name
    let self ←
      if out_of_scope_var.«exists» then
        self.report_issue "Read out of scope" { name := some name }
      else
        self.report_issue "Undefined variables" { name := some name }
    let pos ← self.locate
    let new_state : State := .mk name [] .unknown "load" pos none "yes" "no" "no"
    match dictGet self.name_map current_path with
    | none => .error .keyError
    | some path =>
      let nm := dictSet self.name_map current_path (dictSet path full_name new_state)
      .ok (new_state, { self with name_map := nm })
  else do
    let vstate ←
      match «variable».state with
      | some st => pure st
      | none => .error .attributeError
    let new_state ← self.trace_state vstate "load"
    let self ←
      if vstate.set = "no" then
        self.report_issue "Undefined variables" { name := some name }
      else pure self
    let self ←
      if vstate.set = "maybe" then
        self.report_issue "Possibly undefined variables" { name := some name }
      else pure self
    let new_state := new_state.setRead "yes"
    if !«variable».in_scope then
      match dictGet self.name_map current_path with
      | none => .error .keyError
      | some path =>
        let nm := dictSet self.name_map current_path
          (dictSet path «variable».scoped_name new_state)
        .ok (new_state, { self with name_map := nm })
    else
      .error .nameError

/-- The `for module in module_names` loop of `load_module`.  It runs over
*every* component of the dotted chain, including the first one — the one
already used to select the base module — so resolving even a registered
top-level module tests that module's name against its own submodule table
and reports "Submodule not found" when absent. -/
def Tifa.load_module_go (chain : String) :
    Tifa → Ty → List String → Except PyErr (Ty × Tifa)
  | self, base_module, [] => .ok (base_module, self)
  | self, base_module, m :: rest =>
    let step : Option Ty :=
      match base_module with
      | .module _ submodules _ => dictGet submodules m
      | _ => none
    match step with
    | some sub => Tifa.load_module_go chain self sub rest
    | none => do
      let self ← self.report_issue "Submodule not found" { name := some chain }
      Tifa.load_module_go chain self base_module rest

/-- `Tifa.load_module(chain)`: unknown top-level names report
"Module not found" and yield the empty `ModuleType()`; otherwise the
dotted chain is walked by `load_module_go`. -/
def Tifa.load_module (self : Tifa) (chain : String) :
    Except PyErr (Ty × Tifa) := do
  let module_names := splitOnChar '.' chain
  match dictGet MODULES (module_names.headD "") with
  | some base_module => Tifa.load_module_go chain self base_module module_names
  | none => do
    let self ← self.report_issue "Module not found" { name := some chain }
    .ok (.module "*UnknownModule" [] [], self)

/-- The `fields` attribute a value exposes to the base `Type.load_attr`:
`StrType` and `FileType` have class-level tables, `ModuleType` instances
carry their own `fields` dict, and every other class shares the empty
`Type.fields`. -/
def Ty.fieldsAttr : Ty → List (String × Ty)
  | .str => StrType_fields
  | .file => FileType_fields
  | .module _ _ flds => flds
  | _ => []

/-- The base `Type.load_attr(attr, tifa, callee, callee_position)`:
a `fields` hit returns the field; otherwise the special `"append"` check
calls `tifa.identifyCaller(callee)` — but the `Tifa` class defines only
`identify_caller`, so that line raises `AttributeError`; every other miss
returns `UnknownType()`. -/
def Ty.load_attr_base (self : Ty) (attr : String) (tifa : Tifa) :
    Except PyErr (Ty × Tifa) :=
  match dictGet self.fieldsAttr attr with
  | some t => .ok (t, tifa)
  | none =>
    if attr = "append" then .error .attributeError
    else .ok (.unknown, tifa)

/-- `load_attr` with the source's overrides:

* `ListType` (inherited by `SetType` and `GeneratorType`) intercepts
  `"append"` and returns the local `FunctionType(_append, 'append')`;
* `DictType` intercepts `"items"`/`"keys"`/`"values"`; the `"values"`
  branch returns `FunctionType(_values, 'values')`, but the local closure
  is actually named `_items` there, so `_values` is an undefined name and
  the branch raises `NameError`;
* everything else falls to the base `Type.load_attr`.

The `callee`/`callee_position` arguments only feed the closures and the
crash branches, so only the position is carried (unused). -/
def Ty.load_attr (self : Ty) (attr : String) (tifa : Tifa)
    (_callee_position : Option Pos) : Except PyErr (Ty × Tifa) :=
  match self with
  | .list _ _ | .setT _ _ | .generator _ _ =>
    if attr = "append" then .ok (.function "append", tifa)
    else self.load_attr_base attr tifa
  | .dict _ _ _ _ _ =>
    if attr = "items" then .ok (.function "items", tifa)
    else if attr = "keys" then .ok (.function "keys", tifa)
    else if attr = "values" then .error .nameError
    else self.load_attr_base attr tifa
  | _ => self.load_attr_base attr tifa

/-- The expression context of a name node (`ast.Load` versus the
assignment-target contexts, collapsed to `store`). -/
inductive Ctx where
  | load
  | store

/-- An `ast.alias` of an import statement: `(name, asname)`. -/
structure ImportAlias where
  name : String
  asname : Option String

/-- The node kinds of the embedded AST fragment: exactly the node kinds
the source defines `visit_*` methods for (minus the ones whose visitors
are dead code for the modelled claims), plus `other`, which stands for
any node kind without a handler — `ast.NodeVisitor.generic_visit` visits
its children and returns `None`.  Every node carries its
`lineno`/`col_offset` position. -/
inductive Ast where
  | moduleNode (body : List Ast) (pos : Pos)
  | assign (targets : List Ast) (value : Ast) (pos : Pos)
  | binop (op : Op) (left : Ast) (right : Ast) (pos : Pos)
  | nameNode (id : String) (ctx : Ctx) (pos : Pos)
  | importNode (names : List ImportAlias) (pos : Pos)
  | importFrom (module : Option String) (names : List ImportAlias) (pos : Pos)
  | other (children : List Ast) (pos : Pos)

/-- The position of a node. -/
def Ast.pos : Ast → Pos
  | .moduleNode _ p => p
  | .assign _ _ p => p
  | .binop _ _ _ p => p
  | .nameNode _ _ p => p
  | .importNode _ p => p
  | .importFrom _ _ p => p
  | .other _ p => p

/-- Python `alias.asname or alias.name`: the `asname` when it is a truthy
(non-`None`, non-empty) string, the `name` otherwise. -/
def pyOrStr : Option String → String → String
  | some s, dflt => if s ≠ "" then s else dflt
  | none, dflt => dflt

/-- The `action` closure of `visit_Assign`, applied to one target: a plain
name stores the assigned type; the source's further branches
(`ast.Tuple`/`ast.List` unpacking and the `ast.Subscript` `pass`) concern
node kinds outside the embedded fragment, and any other target kind falls
through with no effect, as in the source. -/
def Tifa.assign_action (self : Tifa) (target : Ast) (type : Ty) :
    Except PyErr Tifa :=
  match target with
  | .nameNode id _ _ => do
    let (_, self) ← self.store_variable id type
    .ok self
  | _ => .ok self

/-- `walk_targets(targets, type, action)`: apply the action to each
target in order. -/
def Tifa.walk_targets (self : Tifa) : List Ast → Ty → Except PyErr Tifa
  | [], _ => .ok self
  | t :: rest, type => do
    let self ← self.assign_action t type
    Tifa.walk_targets self rest type

/-- `visit_Name`: report `"___"` as "Unconnected blocks"; in load context
map `True`/`False`/`None` to literal types, prefer a builtin when no
variable of that name exists anywhere in scope, and otherwise go through
`load_variable`; in store (target) context peek at the existing type or
yield `UnknownType()`. -/
def Tifa.visit_Name (self : Tifa) (id : String) (ctx : Ctx) :
    Except PyErr (Option Ty × Tifa) := do
  let self ←
    if id = "___" then self.report_issue "Unconnected blocks" {}
    else pure self
  match ctx with
  | .load =>
    if id = "True" || id = "False" then .ok (some .bool, self)
    else if id = "None" then .ok (some .noneType, self)
    else do
      let «variable» ← self.find_variable_scope id
      let builtin := dictGet BUILTINS id
      if !«variable».«exists» && builtin.isSome then .ok (builtin, self)
      else do
        let (state, self) ← self.load_variable id
        .ok (some state.type, self)
  | .store => do
    let «variable» ← self.find_variable_scope id
    if «variable».«exists» then
      match «variable».state with
      | some st => .ok (some st.type, self)
      | none => .error .attributeError
    else .ok (some .unknown, self)

/-- The alias loop of `visit_Import`: resolve each dotted module path and
bind it under its alias in the current scope. -/
def Tifa.visit_Import (self : Tifa) : List ImportAlias →
    Except PyErr (Option Ty × Tifa)
  | [] => .ok (none, self)
  | alias₀ :: rest => do
    let asname := pyOrStr alias₀.asname alias₀.name
    let (module_type, self) ← self.load_module alias₀.name
    let (_, self) ← self.store_variable asname module_type
    Tifa.visit_Import self rest

/-- The alias loop of `visit_ImportFrom`: resolve the module (the alias
itself for a bare `from . import`-style node with `module is None`),
project the imported attribute with `load_attr` (whose
`callee_position=self.locate()` argument is evaluated first), and bind
the result. -/
def Tifa.visit_ImportFrom (self : Tifa) (module : Option String) :
    List ImportAlias → Except PyErr (Option Ty × Tifa)
  | [] => .ok (none, self)
  | alias₀ :: rest => do
    let asname := pyOrStr alias₀.asname alias₀.name
    let (module_type, self) ←
      match module with
      | none => self.load_module alias₀.name
      | some module_name => self.load_module module_name
    let pos ← self.locate
    let (name_type, self) ← module_type.load_attr alias₀.name self (some pos)
    let (_, self) ← self.store_variable asname name_type
    Tifa.visit_ImportFrom self module rest

mutual
/-- The `visit` wrapper: push the node (position) onto `node_chain`, bump
`ast_id`, run the action-after-return check when inside a nested scope,
dispatch, pop, and convert a `None` result into `UnknownType()`. -/
def Tifa.visit (self : Tifa) (node : Ast) : Except PyErr (Ty × Tifa) := do
  let self := { self with node_chain := self.node_chain ++ [node.pos],
                          ast_id := self.ast_id + 1 }
  let self ←
    if self.scope_chain.length > 1 then do
      let return_state ← self.find_variable_scope "*return"
      if return_state.«exists» && return_state.in_scope then
        match return_state.state with
        | some st =>
          if st.set = "yes" then self.report_issue "Action after return" {}
          else pure self
        | none => .error .attributeError
      else pure self
    else pure self
  let (result, self) ← Tifa.dispatch self node
  let self := { self with ast_id := self.ast_id - 1,
                          node_chain := self.node_chain.dropLast }
  match result with
  | none => .ok (.unknown, self)
  | some t => .ok (t, self)
termination_by 3 * sizeOf node + 2

/-- The `visit_*` dispatch of `ast.NodeVisitor.visit`: handled node kinds
go to their method; `moduleNode` and `other` have no handler and get
`generic_visit` (visit all children, return `None`). -/
def Tifa.dispatch (self : Tifa) (node : Ast) : Except PyErr (Option Ty × Tifa) :=
  match node with
  | .moduleNode body _ => do
    let self ← Tifa.visit_children self body
    .ok (none, self)
  | .other children _ => do
    let self ← Tifa.visit_children self children
    .ok (none, self)
  | .assign targets value p => Tifa.visit_Assign self (.assign targets value p)
  | .binop op l r p => Tifa.visit_BinOp self (.binop op l r p)
  | .nameNode id ctx _ => Tifa.visit_Name self id ctx
  | .importNode names _ => Tifa.visit_Import self names
  | .importFrom m names _ => Tifa.visit_ImportFrom self m names
termination_by 3 * sizeOf node + 1

/-- `generic_visit` / `_visit_nodes`: visit a list of child nodes in
order, discarding their types. -/
def Tifa.visit_children (self : Tifa) : List Ast → Except PyErr Tifa
  | [] => .ok self
  | n :: rest => do
    let (_, self) ← Tifa.visit self n
    Tifa.visit_children self rest
termination_by l => 3 * sizeOf l

/-- `visit_Assign`: visit the right-hand side, visit the target nodes,
then unravel the value type onto the targets via `walk_targets`.  Only
`assign` nodes reach this method through the dispatch. -/
def Tifa.visit_Assign (self : Tifa) (node : Ast) :
    Except PyErr (Option Ty × Tifa) :=
  match node with
  | .assign targets value _ => do
    let (value_type, self) ← Tifa.visit self value
    let self ← Tifa.visit_children self targets
    let self ← Tifa.walk_targets self targets value_type
    .ok (none, self)
  | _ => .ok (none, self)
termination_by 3 * sizeOf node

/-- `visit_BinOp`: visit both operands; `Unknown` on either side yields
`Unknown` silently; then the nested operator-table lookup.  On a table
miss the source builds the "Incompatible types" payload with
`node.op.name` — `ast` operator nodes have no `name` attribute, so that
line raises `AttributeError`.  Only `binop` nodes reach this method. -/
def Tifa.visit_BinOp (self : Tifa) (node : Ast) :
    Except PyErr (Option Ty × Tifa) :=
  match node with
  | .binop op l r _ => do
    let (left, self) ← Tifa.visit self l
    let (right, self) ← Tifa.visit self r
    if isUnknownTy left || isUnknownTy right then .ok (some .unknown, self)
    else
      match binopLookup op (pyType left) (pyType right) with
      | some rule => do
        let result ← rule left right
        .ok (result, self)
      | none => .error .attributeError
  | _ => .ok (none, self)
termination_by 3 * sizeOf node
end

/-- The key loop of `_collect_top_level_varaibles` (source spelling):
keys that split into exactly two components compare their first component
(a string) against `self.scope_chain[0]` (an int) — never equal in
Python 3.  Were the guard ever true, the body would fail anyway: it
accesses `self.report.top_level_variables` on a dict (`AttributeError`)
and reads the undefined name `fullName`. -/
def Tifa.collect_go (self : Tifa) : List (String × State) → Except PyErr Tifa
  | [] => .ok self
  | (full_name, _) :: rest => do
    let split_name := splitOnChar '/' full_name
    if split_name.length == 2 then do
      let c0 ←
        match self.scope_chain.head? with
        | some c => pure c
        | none => .error .indexError
      if pyEqStrNat (split_name.headD "") c0 then .error .attributeError
      else Tifa.collect_go self rest
    else Tifa.collect_go self rest

/-- `Tifa._collect_top_level_varaibles()` (source spelling): create the
`top_level_variables` key, then scan the first open path's variables. -/
def Tifa._collect_top_level_varaibles (self : Tifa) : Except PyErr Tifa := do
  let self := { self with report :=
    { self.report with top_level_variables := some [] } }
  let path0 ←
    match self.path_chain.head? with
    | some p => pure p
    | none => .error .indexError
  match dictGet self.name_map path0 with
  | none => .error .keyError
  | some main_path_vars => Tifa.collect_go self main_path_vars

/-- `Tifa.process_ast(ast_tree)`: reset the run state, install a fresh
report, traverse, assign `report['variables'] = self.name_map`, run the
end-of-scope sweep and the top-level collection, and return the report. -/
def Tifa.process_ast (self : Tifa) (ast_tree : Ast) : Except PyErr Report := do
  let self := self._reset
  let self := { self with report := Tifa._init_report }
  let (_, self) ← self.visit ast_tree
  let self := { self with report :=
    { self.report with «variables» := self.name_map } }
  let self ← self._finish_scope
  let self ← self._collect_top_level_varaibles
  .ok self.report

/-- The outcome of the external parser `ast.parse`, which is out of scope
and consumed at its interface: a tree, or an exception payload. -/
inductive ParseResult where
  | ok (tree : Ast)
  | error (message : String)

/-- A printable payload for an embedded Python runtime error. -/
def pyErrMessage : PyErr → String
  | .nameError => "NameError"
  | .attributeError => "AttributeError"
  | .keyError => "KeyError"
  | .indexError => "IndexError"
  | .typeError => "TypeError"

/-- The observable outcome of `process_code`: a normally returned report,
or a propagated exception together with the error report that was stored
on the analyzer (`self.report`) just before the `raise`. -/
inductive ProcOutcome where
  | returned (report : Report)
  | raised (error : String) (stored_report : Report)

/-- `Tifa.process_code(code)`: the `try` block parses and delegates to
`process_ast`; `except Exception as error` stores
`self.report = Tifa._error_report(error)` and then **re-raises** the
exception (`raise error`); the trailing `return self.report` is
unreachable.  Parsing itself is the external collaborator, so the
function consumes the parser's outcome. -/
def Tifa.process_code (self : Tifa) (parsed : ParseResult) : ProcOutcome :=
  match parsed with
  | .ok ast_tree =>
    match self.process_ast ast_tree with
    | .ok report => .returned report
    | .error e => .raised (pyErrMessage e) (Tifa._error_report (pyErrMessage e))
  | .error message => .raised message (Tifa._error_report message)

/-- A `Tifa()` object before any processing: the Python constructor sets
no fields at all (every run begins with `_reset`), so the initial field
values below are arbitrary placeholders that `_reset` overwrites. -/
def emptyTifa : Tifa :=
  { path_id := 0, scope_id := 0, ast_id := 0, path_names := [],
    scope_names := [], node_chain := [], scope_chain := [], path_chain := [],
    name_map := [], definition_chain := [], path_parents := [],
    report := Tifa._init_report }

/-- The analyzer state right after `process_ast` has run `_reset` and
installed a fresh report: module scope `[0]`, one open path `[0]`, an
empty per-path variable map. -/
def freshTifa : Tifa := { emptyTifa._reset with report := Tifa._init_report }

/-- The analyzer state in the middle of visiting a node located at `p`
(the node chain holds that node), as seen by the state-store operations,
which read `locate()` = the top of the chain. -/
def tifaAt (p : Pos) : Tifa := { freshTifa with node_chain := [p] }

/-- The three list-like container kinds (`ListType`, `SetType`,
`GeneratorType`), used to quantify over them jointly. -/
inductive SeqKind where
  | listK
  | setK
  | generatorK

/-- Build the container value of the given kind. -/
def mkSeq : SeqKind → Ty → Bool → Ty
  | .listK, s, e => .list s e
  | .setK, s, e => .setT s e
  | .generatorK, s, e => .generator s e

/-- Whether a `process_code` outcome is a normal return (as opposed to a
propagated exception). -/
def ProcOutcome.isReturned : ProcOutcome → Bool
  | .returned _ => true
  | .raised _ _ => false

/-- C4: for every type `t` (including `Unknown` itself),
`are_types_equal(Unknown, t)` and `are_types_equal(t, Unknown)` are both
false: the `UnknownType` test is the first non-`None` branch of the
function and short-circuits everything else. -/
theorem are_types_equal_unknown_never_equal (t : Ty) :
    are_types_equal (some .unknown) (some t) = .ok false
    ∧ are_types_equal (some t) (some .unknown) = .ok false := by
  constructor <;> simp [are_types_equal, are_types_equal_some, isUnknownTy]

/-- C10: passing Python `None` on either side of `are_types_equal` yields
false rather than an error — the `left is None or right is None` branch
fires before anything can dereference the missing value. -/
theorem are_types_equal_none_never_equal (x : Option Ty) :
    are_types_equal none x = .ok false
    ∧ are_types_equal x none = .ok false := by
  refine ⟨?_, ?_⟩ <;>
    cases x <;> simp [are_types_equal]

/-- C6 counterexample: `merge_types` on two tuple types returns the raw
Python list `left.subtypes + right.subtypes`, not a `TupleType` value
whose subtype sequence is that concatenation. -/
theorem merge_types_tuple_returns_raw_list :
    merge_types (.tuple [.num]) (.tuple [.str])
      ≠ .ok (some (.tuple [.num, .str])) := by
  simp [merge_types]

/-- C6 (amended): on two list/set/generator containers `merge_types`
returns the right operand's subtype when the left is empty and a clone of
the left operand's subtype otherwise; on two tuples it returns the
concatenation of the two subtype sequences as a raw list (not wrapped in
a tuple type value). -/
theorem merge_types_container_and_tuple_spec (k₁ k₂ : SeqKind) (s₁ s₂ : Ty)
    (e₁ e₂ : Bool) (ts₁ ts₂ : List Ty) :
    merge_types (mkSeq k₁ s₁ e₁) (mkSeq k₂ s₂ e₂)
        = .ok (some (if e₁ then s₂ else clone s₁))
    ∧ merge_types (.tuple ts₁) (.tuple ts₂)
        = .ok (some (.pyList (ts₁ ++ ts₂))) := by
  constructor
  · cases k₁ <;> cases k₂ <;> cases e₁ <;>
      simp [merge_types, mkSeq, Ty.subtypeAttr]
  · rfl

/-- C7: the operator table resolves `Num + Num` to `NumType_any`, and the
`NumType_any`/`StrType_any`/`BoolType_any` rules ignore their operands —
but each returns the *class object* (`lambda *x: NumType`), not a fresh
instance of the named type: the Python class of the returned value is
`type`, not `NumType`. -/
theorem binop_rules_return_class_objects (l r : Ty) :
    binopLookup .add .numC .numC = some NumType_any
    ∧ NumType_any l r = .ok (some (.pyClass .numC))
    ∧ StrType_any l r = .ok (some (.pyClass .strC))
    ∧ BoolType_any l r = .ok (some (.pyClass .boolC))
    ∧ pyType (.pyClass .numC) ≠ .numC := by
  refine ⟨rfl, rfl, rfl, rfl, ?_⟩
  simp [pyType]

/-- C1: after `store_variable("x", NumType())` at module scope records the
new `State` under the fully qualified key `0/x`, a subsequent
`find_variable_scope("x")` (same scope chain `[0]`, same path chain `[0]`)
returns `Identifier(False)` — exists `false`, in_scope `false`, the
placeholder name, no state — because the lookup probes
`"/".join(scope_chain[:scope_index]) + "/x"`, i.e. `"/x"`, never `"0/x"`. -/
theorem store_variable_then_find_variable_scope_not_found :
    (((tifaAt ⟨1, 0⟩).store_variable "x" .num).bind fun r =>
        (r.2.find_variable_scope "x").map fun i =>
          (i.«exists», i.in_scope, i.scoped_name, i.state.isSome,
           (dictGetD r.2.name_map 0 []).map Prod.fst))
      = .ok (false, false, "UNKNOWN", false, ["0/x"]) := rfl

/-- C3: two consecutive `store_variable("x", ...)` calls with no
intervening read.  Because `find_variable_scope` cannot see the first
write (see C1), the second write takes the fresh-variable branch: its
`State` has `over='no'` and no `over_position`, and the end-of-scope
sweep — whose `in_scope` guard compares strings to ints and never holds —
reports neither "Overwritten variables" nor anything else. -/
theorem double_store_no_overwrite_flag :
    (((tifaAt ⟨1, 0⟩).store_variable "x" .num).bind fun r : State × Tifa =>
        (({ r.2 with node_chain := [(⟨2, 0⟩ : Pos)] }).store_variable "x" .num).bind
          fun r2 : State × Tifa =>
            (r2.2._finish_scope).map fun s3 : Tifa =>
              (r2.1.over, r2.1.over_position,
               dictGetD s3.report.issues "Overwritten variables" [],
               dictGetD s3.report.issues "Unread variables" []))
      = .ok ("no", none, [], []) := rfl

/-- C5: `load_module` walks *every* component of the dotted chain,
including the leading one already used to select the base module.
Resolving the registered single-component chain `"math"` therefore
reports a spurious "Submodule not found" (while still returning the math
module); `"matplotlib.pyplot"` resolves to `pyplot` yet also reports one;
an unregistered top-level name reports "Module not found" and yields the
empty module placeholder. -/
theorem load_module_registered_reports_submodule_not_found :
    (((tifaAt ⟨1, 0⟩).load_module "math").map fun r =>
        ((match r.1 with | .module n _ _ => n | _ => "not a module"),
         (dictGetD r.2.report.issues "Submodule not found" []).map IssueData.name,
         dictGetD r.2.report.issues "Module not found" []))
      = .ok ("math", [some "math"], [])
    ∧ (((tifaAt ⟨1, 0⟩).load_module "matplotlib.pyplot").map fun r =>
        ((match r.1 with | .module n _ _ => n | _ => "not a module"),
         (dictGetD r.2.report.issues "Submodule not found" []).length))
      = .ok ("pyplot", 1)
    ∧ (((tifaAt ⟨1, 0⟩).load_module "numpy").map fun r =>
        (r.1,
         (dictGetD r.2.report.issues "Module not found" []).map IssueData.name,
         dictGetD r.2.report.issues "Submodule not found" []))
      = .ok (.module "*UnknownModule" [] [], [some "numpy"], []) :=
  ⟨rfl, rfl, rfl⟩

/-- C8 counterexample: on a parse failure, `process_code` does *not*
return the error report to its caller — it stores the report and then
re-raises the parse exception (`raise error`), so the outcome is a
propagated exception, not a normal return. -/
theorem process_code_parse_error_is_raised :
    emptyTifa.process_code (.error "invalid syntax")
      = .raised "invalid syntax" (Tifa._error_report "invalid syntax")
    ∧ (emptyTifa.process_code (.error "invalid syntax")).isReturned = false :=
  ⟨rfl, rfl⟩

/-- C8 (amended): when parsing fails, `process_code` builds the
error-shaped report — `success=false`, the error payload present, empty
issues and variables mappings, no partial analysis results — stores it on
the analyzer, and then re-raises the parse exception to its caller. -/
theorem process_code_parse_error_builds_report_and_reraises
    (s : Tifa) (message : String) :
    s.process_code (.error message)
      = .raised message
          { success := false, error := some message, issues := [],
            «variables» := [], top_level_variables := none } := rfl

/-- C9: `process_ast` is a function of the tree alone — `_reset`
reinitializes every run field and a fresh report is installed before
traversal, so two runs from arbitrary (e.g. left-over) analyzer states
produce identical outcomes: the same success flag, the same issue records
per kind in the same order, and the same variables and top-level-variables
mappings.  (The builtin and module registries are immutable constants of
the embedding, matching the claim's unchanged-registry premise.) -/
theorem process_ast_deterministic (s₁ s₂ : Tifa) (tree : Ast) :
    s₁.process_ast tree = s₂.process_ast tree := rfl

/-- The fully qualified key `store_variable` writes (`"0/" ++ n`) differs
from the candidate key `find_variable_scope` probes (`"/" ++ n`): their
character lists have different lengths. -/
theorem store_key_ne (n : String) :
    ("0/" ++ n : String) ≠ "/" ++ n := by
  intro hEq
  have h2 : ('0' :: '/' :: n.data) = ('/' :: n.data) := congrArg String.data hEq
  have h3 := congrArg List.length h2
  simp at h3

/-- `Tifa.in_scope` is false for every key whenever the scope chain is
nonempty: either the lengths disagree, or the elementwise string-to-int
comparison (`pyEqStrNat`) fails on the first pair. -/
theorem in_scope_cons_false (fn : String) (c : Nat) (cs : List Nat) :
    Tifa.in_scope fn (c :: cs) = false := by
  unfold Tifa.in_scope
  cases h : (splitOnChar '/' fn).dropLast with
  | nil => simp
  | cons a as =>
    cases h2 : (c :: cs).reverse with
    | nil => exact absurd h2 (by simp)
    | cons b bs => simp [pyEqStrNat]

/-- Characterization of a successful `report_issue`: with a position
available and the issue kind present, the payload (completed with the
position) is appended to that kind's record list. -/
theorem report_issue_ok (s : Tifa) (k : String) (d : IssueData) (pos : Pos)
    (lst : List IssueData)
    (hpos : d.position = none) (hloc : s.locate = .ok pos)
    (hk : dictGet s.report.issues k = some lst) :
    s.report_issue k d
      = .ok { s with report := { s.report with
          issues := dictSet s.report.issues k (lst ++ [{ d with position := some pos }]) } } := by
  unfold Tifa.report_issue
  simp [hpos, hloc, hk, Bind.bind, Except.bind, Pure.pure, Except.pure]

/-- At module scope (`scope_chain = [0]`, one open path `0`),
`find_variable_scope` probes only the key `"/" ++ name` (the slice
`scope_chain[:0]` is empty); when that key is absent the result is the
non-existing `Identifier`. -/
theorem find_scope_module (s : Tifa) (name : String) (d : List (String × State))
    (hsc : s.scope_chain = [0]) (hpc : s.path_chain = [0])
    (hmap : dictGet s.name_map 0 = some d)
    (hnone : dictGet d ("/" ++ name) = none) :
    s.find_variable_scope name = .ok { «exists» := false } := by
  unfold Tifa.find_variable_scope
  rw [hsc]
  simp [Tifa.find_scope_go, Tifa.find_scope_paths, hsc, hpc, hmap, hnone,
    Bind.bind, Except.bind, Pure.pure, Except.pure, strJoin]

/-- Characterization of `store_variable` on a variable the scope lookup
does not find: a fresh `State` with `read='no', set='yes', over='no'` is
recorded under the fully scope-qualified key on the current path. -/
theorem store_variable_fresh (s : Tifa) (name : String) (ty : Ty) (p0 : Nat)
    (pos : Pos) (path : List (String × State))
    (hfind : s.find_variable_scope name = .ok { «exists» := false })
    (hpath : s.path_chain.head? = some p0)
    (hloc : s.locate = .ok pos)
    (hmap : dictGet s.name_map p0 = some path) :
    s.store_variable name ty
      = .ok (State.mk name [] ty "store" pos none "no" "yes" "no",
        { s with name_map := (dictSet s.name_map p0
            (dictSet path (s._scope_chain_str (some name))
              (State.mk name [] ty "store" pos none "no" "yes" "no"))) }) := by
  unfold Tifa.store_variable
  simp [hfind, hpath, hloc, hmap, Bind.bind, Except.bind, Pure.pure, Except.pure]

/-- Characterization of `load_variable` on a variable the scope lookup
does not find: one of "Read out of scope" / "Undefined variables" is
reported (depending on the out-of-scope scan), and a fresh `State` with
`read='yes', set='no', over='no'` of type `Unknown` is recorded under the
fully scope-qualified key. -/
theorem load_variable_fresh (s s' : Tifa) (name : String) (p0 : Nat)
    (pos : Pos) (path : List (String × State))
    (hfind : s.find_variable_scope name = .ok { «exists» := false })
    (hpath : s.path_chain.head? = some p0)
    (hrep : (if (s.find_variable_out_of_scope name).«exists» then
               s.report_issue "Read out of scope" { name := some name }
             else s.report_issue "Undefined variables" { name := some name })
            = .ok s')
    (hloc : s'.locate = .ok pos)
    (hmap : dictGet s'.name_map p0 = some path) :
    s.load_variable name
      = .ok (State.mk name [] .unknown "load" pos none "yes" "no" "no",
        { s' with name_map := (dictSet s'.name_map p0
            (dictSet path (s._scope_chain_str (some name))
              (State.mk name [] .unknown "load" pos none "yes" "no" "no"))) }) := by
  unfold Tifa.load_variable
  by_cases hoos : (s.find_variable_out_of_scope name).«exists»
  · rw [if_pos hoos] at hrep
    simp [hfind, hpath, hoos, hrep, hloc, hmap, Bind.bind, Except.bind, Pure.pure,
      Except.pure]
  · rw [if_neg hoos] at hrep
    simp [hfind, hpath, hoos, hrep, hloc, hmap, Bind.bind, Except.bind, Pure.pure,
      Except.pure]

/-- The `_finish_scope` loop changes nothing when the scope chain is
nonempty: its `in_scope` guard never holds (`in_scope_cons_false`). -/
theorem finish_scope_go_noop (s : Tifa) (c : Nat) (cs : List Nat)
    (hsc : s.scope_chain = c :: cs) :
    ∀ d, Tifa.finish_scope_go s d = .ok s := by
  intro d
  induction d with
  | nil => rfl
  | cons kv rest ih =>
    unfold Tifa.finish_scope_go
    simp [hsc, in_scope_cons_false, ih, Bind.bind, Except.bind, Pure.pure, Except.pure]

/-- `_finish_scope` is a no-op (and in particular reports nothing)
whenever the scope chain is nonempty and the first open path is present
in the name map. -/
theorem finish_scope_noop (s : Tifa) (c : Nat) (cs : List Nat) (p0 : Nat)
    (d : List (String × State))
    (hsc : s.scope_chain = c :: cs)
    (hpath : s.path_chain.head? = some p0)
    (hmap : dictGet s.name_map p0 = some d) :
    s._finish_scope = .ok s := by
  unfold Tifa._finish_scope
  simp [hpath, hmap, finish_scope_go_noop s c cs hsc, Bind.bind, Except.bind,
    Pure.pure, Except.pure]



set_option maxRecDepth 4096 in
/-- C2: writing a variable with `store_variable` and then reading it with
`load_variable`, with no intervening write, leaves the final recorded
`State` for that variable with `read='yes'`, and the end-of-scope sweep
then reports no "Unread variables" issue for it.  (The scope lookup bug
of C1 makes the load take the fresh-variable branch — reporting a
spurious "Read out of scope" — but the recorded state still ends with
`read='yes'` under the same fully qualified key.)  Variable names are
nonempty identifiers. -/
theorem store_then_load_final_read_yes (name : String) (ty : Ty) (p : Pos)
    (h : name ≠ "") :
    (((tifaAt p).store_variable name ty).bind fun r : State × Tifa =>
        (r.2.load_variable name).bind fun r2 : State × Tifa =>
          (r2.2._finish_scope).map fun s3 : Tifa =>
            ((dictGet (dictGetD s3.name_map 0 []) ("0/" ++ name)).map State.read,
             dictGetD s3.report.issues "Unread variables" []))
      = .ok (some "yes", []) := by
  have hkey : (tifaAt p)._scope_chain_str (some name) = "0/" ++ name := by
    simp [Tifa._scope_chain_str, tifaAt, freshTifa, emptyTifa, Tifa._reset, h,
      strJoin, show toString (0 : Nat) = "0" from rfl]
  have hfind0 : (tifaAt p).find_variable_scope name = .ok { «exists» := false } :=
    find_scope_module _ _ [] rfl rfl rfl rfl
  have hstoreC : (tifaAt p).store_variable name ty
      = .ok (State.mk name [] ty "store" p none "no" "yes" "no", ({ tifaAt p with name_map := [(0, [("0/" ++ name, State.mk name [] ty "store" p none "no" "yes" "no")])] } : Tifa)) := by
    rw [store_variable_fresh (tifaAt p) name ty 0 p [] hfind0 rfl rfl rfl, hkey]
    rfl
  have hkey1 : ({ tifaAt p with name_map := [(0, [("0/" ++ name, State.mk name [] ty "store" p none "no" "yes" "no")])] } : Tifa)._scope_chain_str (some name) = "0/" ++ name := by
    unfold Tifa._scope_chain_str
    rw [show ({ tifaAt p with name_map := [(0, [("0/" ++ name, State.mk name [] ty "store" p none "no" "yes" "no")])] } : Tifa).scope_chain = [0] from rfl]
    simp [h, strJoin, show toString (0 : Nat) = "0" from rfl]
  have hfind1 : ({ tifaAt p with name_map := [(0, [("0/" ++ name, State.mk name [] ty "store" p none "no" "yes" "no")])] } : Tifa).find_variable_scope name = .ok { «exists» := false } := by
    apply find_scope_module ({ tifaAt p with name_map := [(0, [("0/" ++ name, State.mk name [] ty "store" p none "no" "yes" "no")])] } : Tifa) name [("0/" ++ name, State.mk name [] ty "store" p none "no" "yes" "no")] rfl rfl rfl
    simp [dictGet, store_key_ne name]
  by_cases hc : name = rsplitLast '/' ("0/" ++ name)
  · have hoos : (({ tifaAt p with name_map := [(0, [("0/" ++ name, State.mk name [] ty "store" p none "no" "yes" "no")])] } : Tifa).find_variable_out_of_scope name).«exists» = true := by
      show (find_out_paths name ({ tifaAt p with name_map := [(0, [("0/" ++ name, State.mk name [] ty "store" p none "no" "yes" "no")])] } : Tifa).name_map).«exists» = true
      rw [show ({ tifaAt p with name_map := [(0, [("0/" ++ name, State.mk name [] ty "store" p none "no" "yes" "no")])] } : Tifa).name_map = [(0, [("0/" ++ name, State.mk name [] ty "store" p none "no" "yes" "no")])] from rfl]
      simp [find_out_paths, find_out_keys, hc.symm]
    have hrep : ({ tifaAt p with name_map := [(0, [("0/" ++ name, State.mk name [] ty "store" p none "no" "yes" "no")])] } : Tifa).report_issue "Read out of scope" { name := some name }
        = .ok ({ ({ tifaAt p with name_map := [(0, [("0/" ++ name, State.mk name [] ty "store" p none "no" "yes" "no")])] } : Tifa) with report := { ({ tifaAt p with name_map := [(0, [("0/" ++ name, State.mk name [] ty "store" p none "no" "yes" "no")])] } : Tifa).report with issues := (dictSet Tifa._init_report.issues "Read out of scope" [{ name := some name, position := some p }]) } } : Tifa) := by
      rw [report_issue_ok ({ tifaAt p with name_map := [(0, [("0/" ++ name, State.mk name [] ty "store" p none "no" "yes" "no")])] } : Tifa) "Read out of scope" { name := some name } p [] rfl rfl rfl]
      rfl
    have hrep2 : (if (({ tifaAt p with name_map := [(0, [("0/" ++ name, State.mk name [] ty "store" p none "no" "yes" "no")])] } : Tifa).find_variable_out_of_scope name).«exists» then
          ({ tifaAt p with name_map := [(0, [("0/" ++ name, State.mk name [] ty "store" p none "no" "yes" "no")])] } : Tifa).report_issue "Read out of scope" { name := some name }
        else ({ tifaAt p with name_map := [(0, [("0/" ++ name, State.mk name [] ty "store" p none "no" "yes" "no")])] } : Tifa).report_issue "Undefined variables" { name := some name })
        = .ok ({ ({ tifaAt p with name_map := [(0, [("0/" ++ name, State.mk name [] ty "store" p none "no" "yes" "no")])] } : Tifa) with report := { ({ tifaAt p with name_map := [(0, [("0/" ++ name, State.mk name [] ty "store" p none "no" "yes" "no")])] } : Tifa).report with issues := (dictSet Tifa._init_report.issues "Read out of scope" [{ name := some name, position := some p }]) } } : Tifa) := by
      rw [hoos]
      simpa using hrep
    have hload := load_variable_fresh ({ tifaAt p with name_map := [(0, [("0/" ++ name, State.mk name [] ty "store" p none "no" "yes" "no")])] } : Tifa) ({ ({ tifaAt p with name_map := [(0, [("0/" ++ name, State.mk name [] ty "store" p none "no" "yes" "no")])] } : Tifa) with report := { ({ tifaAt p with name_map := [(0, [("0/" ++ name, State.mk name [] ty "store" p none "no" "yes" "no")])] } : Tifa).report with issues := (dictSet Tifa._init_report.issues "Read out of scope" [{ name := some name, position := some p }]) } } : Tifa) name 0 p
      [("0/" ++ name, State.mk name [] ty "store" p none "no" "yes" "no")] hfind1 rfl hrep2 rfl rfl
    rw [hkey1] at hload
    have hmap3 : dictGet ({ ({ ({ tifaAt p with name_map := [(0, [("0/" ++ name, State.mk name [] ty "store" p none "no" "yes" "no")])] } : Tifa) with report := { ({ tifaAt p with name_map := [(0, [("0/" ++ name, State.mk name [] ty "store" p none "no" "yes" "no")])] } : Tifa).report with issues := (dictSet Tifa._init_report.issues "Read out of scope" [{ name := some name, position := some p }]) } } : Tifa) with name_map := (dictSet ({ ({ tifaAt p with name_map := [(0, [("0/" ++ name, State.mk name [] ty "store" p none "no" "yes" "no")])] } : Tifa) with report := { ({ tifaAt p with name_map := [(0, [("0/" ++ name, State.mk name [] ty "store" p none "no" "yes" "no")])] } : Tifa).report with issues := (dictSet Tifa._init_report.issues "Read out of scope" [{ name := some name, position := some p }]) } } : Tifa).name_map 0 (dictSet [("0/" ++ name, State.mk name [] ty "store" p none "no" "yes" "no")] ("0/" ++ name) (State.mk name [] Ty.unknown "load" p none "yes" "no" "no"))) } : Tifa).name_map 0 = some [("0/" ++ name, State.mk name [] Ty.unknown "load" p none "yes" "no" "no")] := by
      rw [show ({ ({ ({ tifaAt p with name_map := [(0, [("0/" ++ name, State.mk name [] ty "store" p none "no" "yes" "no")])] } : Tifa) with report := { ({ tifaAt p with name_map := [(0, [("0/" ++ name, State.mk name [] ty "store" p none "no" "yes" "no")])] } : Tifa).report with issues := (dictSet Tifa._init_report.issues "Read out of scope" [{ name := some name, position := some p }]) } } : Tifa) with name_map := (dictSet ({ ({ tifaAt p with name_map := [(0, [("0/" ++ name, State.mk name [] ty "store" p none "no" "yes" "no")])] } : Tifa) with report := { ({ tifaAt p with name_map := [(0, [("0/" ++ name, State.mk name [] ty "store" p none "no" "yes" "no")])] } : Tifa).report with issues := (dictSet Tifa._init_report.issues "Read out of scope" [{ name := some name, position := some p }]) } } : Tifa).name_map 0 (dictSet [("0/" ++ name, State.mk name [] ty "store" p none "no" "yes" "no")] ("0/" ++ name) (State.mk name [] Ty.unknown "load" p none "yes" "no" "no"))) } : Tifa).name_map = dictSet [(0, [("0/" ++ name, State.mk name [] ty "store" p none "no" "yes" "no")])] 0
            (dictSet [("0/" ++ name, State.mk name [] ty "store" p none "no" "yes" "no")] ("0/" ++ name) (State.mk name [] Ty.unknown "load" p none "yes" "no" "no")) from rfl]
      simp [dictSet, dictGet]
    have hfin := finish_scope_noop ({ ({ ({ tifaAt p with name_map := [(0, [("0/" ++ name, State.mk name [] ty "store" p none "no" "yes" "no")])] } : Tifa) with report := { ({ tifaAt p with name_map := [(0, [("0/" ++ name, State.mk name [] ty "store" p none "no" "yes" "no")])] } : Tifa).report with issues := (dictSet Tifa._init_report.issues "Read out of scope" [{ name := some name, position := some p }]) } } : Tifa) with name_map := (dictSet ({ ({ tifaAt p with name_map := [(0, [("0/" ++ name, State.mk name [] ty "store" p none "no" "yes" "no")])] } : Tifa) with report := { ({ tifaAt p with name_map := [(0, [("0/" ++ name, State.mk name [] ty "store" p none "no" "yes" "no")])] } : Tifa).report with issues := (dictSet Tifa._init_report.issues "Read out of scope" [{ name := some name, position := some p }]) } } : Tifa).name_map 0 (dictSet [("0/" ++ name, State.mk name [] ty "store" p none "no" "yes" "no")] ("0/" ++ name) (State.mk name [] Ty.unknown "load" p none "yes" "no" "no"))) } : Tifa) 0 [] 0 [("0/" ++ name, State.mk name [] Ty.unknown "load" p none "yes" "no" "no")] rfl rfl hmap3
    rw [hstoreC]
    simp only [Except.bind]
    rw [hload]
    simp only [Except.bind]
    rw [hfin]
    simp only [Except.map]
    have hm : dictGetD ({ ({ ({ tifaAt p with name_map := [(0, [("0/" ++ name, State.mk name [] ty "store" p none "no" "yes" "no")])] } : Tifa) with report := { ({ tifaAt p with name_map := [(0, [("0/" ++ name, State.mk name [] ty "store" p none "no" "yes" "no")])] } : Tifa).report with issues := (dictSet Tifa._init_report.issues "Read out of scope" [{ name := some name, position := some p }]) } } : Tifa) with name_map := (dictSet ({ ({ tifaAt p with name_map := [(0, [("0/" ++ name, State.mk name [] ty "store" p none "no" "yes" "no")])] } : Tifa) with report := { ({ tifaAt p with name_map := [(0, [("0/" ++ name, State.mk name [] ty "store" p none "no" "yes" "no")])] } : Tifa).report with issues := (dictSet Tifa._init_report.issues "Read out of scope" [{ name := some name, position := some p }]) } } : Tifa).name_map 0 (dictSet [("0/" ++ name, State.mk name [] ty "store" p none "no" "yes" "no")] ("0/" ++ name) (State.mk name [] Ty.unknown "load" p none "yes" "no" "no"))) } : Tifa).name_map 0 [] = [("0/" ++ name, State.mk name [] Ty.unknown "load" p none "yes" "no" "no")] := by
      rw [dictGetD, hmap3]
      rfl
    rw [hm]
    simp [dictGet, dictSet, dictGetD, Tifa._init_report, State.read]
  · have hoos : (({ tifaAt p with name_map := [(0, [("0/" ++ name, State.mk name [] ty "store" p none "no" "yes" "no")])] } : Tifa).find_variable_out_of_scope name).«exists» = false := by
      show (find_out_paths name ({ tifaAt p with name_map := [(0, [("0/" ++ name, State.mk name [] ty "store" p none "no" "yes" "no")])] } : Tifa).name_map).«exists» = false
      rw [show ({ tifaAt p with name_map := [(0, [("0/" ++ name, State.mk name [] ty "store" p none "no" "yes" "no")])] } : Tifa).name_map = [(0, [("0/" ++ name, State.mk name [] ty "store" p none "no" "yes" "no")])] from rfl]
      simp [find_out_paths, find_out_keys, hc]
    have hrep : ({ tifaAt p with name_map := [(0, [("0/" ++ name, State.mk name [] ty "store" p none "no" "yes" "no")])] } : Tifa).report_issue "Undefined variables" { name := some name }
        = .ok ({ ({ tifaAt p with name_map := [(0, [("0/" ++ name, State.mk name [] ty "store" p none "no" "yes" "no")])] } : Tifa) with report := { ({ tifaAt p with name_map := [(0, [("0/" ++ name, State.mk name [] ty "store" p none "no" "yes" "no")])] } : Tifa).report with issues := (dictSet Tifa._init_report.issues "Undefined variables" [{ name := some name, position := some p }]) } } : Tifa) := by
      rw [report_issue_ok ({ tifaAt p with name_map := [(0, [("0/" ++ name, State.mk name [] ty "store" p none "no" "yes" "no")])] } : Tifa) "Undefined variables" { name := some name } p [] rfl rfl rfl]
      rfl
    have hrep2 : (if (({ tifaAt p with name_map := [(0, [("0/" ++ name, State.mk name [] ty "store" p none "no" "yes" "no")])] } : Tifa).find_variable_out_of_scope name).«exists» then
          ({ tifaAt p with name_map := [(0, [("0/" ++ name, State.mk name [] ty "store" p none "no" "yes" "no")])] } : Tifa).report_issue "Read out of scope" { name := some name }
        else ({ tifaAt p with name_map := [(0, [("0/" ++ name, State.mk name [] ty "store" p none "no" "yes" "no")])] } : Tifa).report_issue "Undefined variables" { name := some name })
        = .ok ({ ({ tifaAt p with name_map := [(0, [("0/" ++ name, State.mk name [] ty "store" p none "no" "yes" "no")])] } : Tifa) with report := { ({ tifaAt p with name_map := [(0, [("0/" ++ name, State.mk name [] ty "store" p none "no" "yes" "no")])] } : Tifa).report with issues := (dictSet Tifa._init_report.issues "Undefined variables" [{ name := some name, position := some p }]) } } : Tifa) := by
      rw [hoos]
      simpa using hrep
    have hload := load_variable_fresh ({ tifaAt p with name_map := [(0, [("0/" ++ name, State.mk name [] ty "store" p none "no" "yes" "no")])] } : Tifa) ({ ({ tifaAt p with name_map := [(0, [("0/" ++ name, State.mk name [] ty "store" p none "no" "yes" "no")])] } : Tifa) with report := { ({ tifaAt p with name_map := [(0, [("0/" ++ name, State.mk name [] ty "store" p none "no" "yes" "no")])] } : Tifa).report with issues := (dictSet Tifa._init_report.issues "Undefined variables" [{ name := some name, position := some p }]) } } : Tifa) name 0 p
      [("0/" ++ name, State.mk name [] ty "store" p none "no" "yes" "no")] hfind1 rfl hrep2 rfl rfl
    rw [hkey1] at hload
    have hmap3 : dictGet ({ ({ ({ tifaAt p with name_map := [(0, [("0/" ++ name, State.mk name [] ty "store" p none "no" "yes" "no")])] } : Tifa) with report := { ({ tifaAt p with name_map := [(0, [("0/" ++ name, State.mk name [] ty "store" p none "no" "yes" "no")])] } : Tifa).report with issues := (dictSet Tifa._init_report.issues "Undefined variables" [{ name := some name, position := some p }]) } } : Tifa) with name_map := (dictSet ({ ({ tifaAt p with name_map := [(0, [("0/" ++ name, State.mk name [] ty "store" p none "no" "yes" "no")])] } : Tifa) with report := { ({ tifaAt p with name_map := [(0, [("0/" ++ name, State.mk name [] ty "store" p none "no" "yes" "no")])] } : Tifa).report with issues := (dictSet Tifa._init_report.issues "Undefined variables" [{ name := some name, position := some p }]) } } : Tifa).name_map 0 (dictSet [("0/" ++ name, State.mk name [] ty "store" p none "no" "yes" "no")] ("0/" ++ name) (State.mk name [] Ty.unknown "load" p none "yes" "no" "no"))) } : Tifa).name_map 0 = some [("0/" ++ name, State.mk name [] Ty.unknown "load" p none "yes" "no" "no")] := by
      rw [show ({ ({ ({ tifaAt p with name_map := [(0, [("0/" ++ name, State.mk name [] ty "store" p none "no" "yes" "no")])] } : Tifa) with report := { ({ tifaAt p with name_map := [(0, [("0/" ++ name, State.mk name [] ty "store" p none "no" "yes" "no")])] } : Tifa).report with issues := (dictSet Tifa._init_report.issues "Undefined variables" [{ name := some name, position := some p }]) } } : Tifa) with name_map := (dictSet ({ ({ tifaAt p with name_map := [(0, [("0/" ++ name, State.mk name [] ty "store" p none "no" "yes" "no")])] } : Tifa) with report := { ({ tifaAt p with name_map := [(0, [("0/" ++ name, State.mk name [] ty "store" p none "no" "yes" "no")])] } : Tifa).report with issues := (dictSet Tifa._init_report.issues "Undefined variables" [{ name := some name, position := some p }]) } } : Tifa).name_map 0 (dictSet [("0/" ++ name, State.mk name [] ty "store" p none "no" "yes" "no")] ("0/" ++ name) (State.mk name [] Ty.unknown "load" p none "yes" "no" "no"))) } : Tifa).name_map = dictSet [(0, [("0/" ++ name, State.mk name [] ty "store" p none "no" "yes" "no")])] 0
            (dictSet [("0/" ++ name, State.mk name [] ty "store" p none "no" "yes" "no")] ("0/" ++ name) (State.mk name [] Ty.unknown "load" p none "yes" "no" "no")) from rfl]
      simp [dictSet, dictGet]
    have hfin := finish_scope_noop ({ ({ ({ tifaAt p with name_map := [(0, [("0/" ++ name, State.mk name [] ty "store" p none "no" "yes" "no")])] } : Tifa) with report := { ({ tifaAt p with name_map := [(0, [("0/" ++ name, State.mk name [] ty "store" p none "no" "yes" "no")])] } : Tifa).report with issues := (dictSet Tifa._init_report.issues "Undefined variables" [{ name := some name, position := some p }]) } } : Tifa) with name_map := (dictSet ({ ({ tifaAt p with name_map := [(0, [("0/" ++ name, State.mk name [] ty "store" p none "no" "yes" "no")])] } : Tifa) with report := { ({ tifaAt p with name_map := [(0, [("0/" ++ name, State.mk name [] ty "store" p none "no" "yes" "no")])] } : Tifa).report with issues := (dictSet Tifa._init_report.issues "Undefined variables" [{ name := some name, position := some p }]) } } : Tifa).name_map 0 (dictSet [("0/" ++ name, State.mk name [] ty "store" p none "no" "yes" "no")] ("0/" ++ name) (State.mk name [] Ty.unknown "load" p none "yes" "no" "no"))) } : Tifa) 0 [] 0 [("0/" ++ name, State.mk name [] Ty.unknown "load" p none "yes" "no" "no")] rfl rfl hmap3
    rw [hstoreC]
    simp only [Except.bind]
    rw [hload]
    simp only [Except.bind]
    rw [hfin]
    simp only [Except.map]
    have hm : dictGetD ({ ({ ({ tifaAt p with name_map := [(0, [("0/" ++ name, State.mk name [] ty "store" p none "no" "yes" "no")])] } : Tifa) with report := { ({ tifaAt p with name_map := [(0, [("0/" ++ name, State.mk name [] ty "store" p none "no" "yes" "no")])] } : Tifa).report with issues := (dictSet Tifa._init_report.issues "Undefined variables" [{ name := some name, position := some p }]) } } : Tifa) with name_map := (dictSet ({ ({ tifaAt p with name_map := [(0, [("0/" ++ name, State.mk name [] ty "store" p none "no" "yes" "no")])] } : Tifa) with report := { ({ tifaAt p with name_map := [(0, [("0/" ++ name, State.mk name [] ty "store" p none "no" "yes" "no")])] } : Tifa).report with issues := (dictSet Tifa._init_report.issues "Undefined variables" [{ name := some name, position := some p }]) } } : Tifa).name_map 0 (dictSet [("0/" ++ name, State.mk name [] ty "store" p none "no" "yes" "no")] ("0/" ++ name) (State.mk name [] Ty.unknown "load" p none "yes" "no" "no"))) } : Tifa).name_map 0 [] = [("0/" ++ name, State.mk name [] Ty.unknown "load" p none "yes" "no" "no")] := by
      rw [dictGetD, hmap3]
      rfl
    rw [hm]
    simp [dictGet, dictSet, dictGetD, Tifa._init_report, State.read]

/-- C2 witness: the store-then-load scenario at the concrete variable
`"x"` of type `Num` at line 1. -/
theorem store_then_load_final_read_yes_witness :
    (((tifaAt ⟨1, 0⟩).store_variable "x" Ty.num).bind fun r : State × Tifa =>
        (r.2.load_variable "x").bind fun r2 : State × Tifa =>
          (r2.2._finish_scope).map fun s3 : Tifa =>
            ((dictGet (dictGetD s3.name_map 0 []) ("0/" ++ "x")).map State.read,
             dictGetD s3.report.issues "Unread variables" []))
      = .ok (some "yes", []) :=
  store_then_load_final_read_yes "x" Ty.num ⟨1, 0⟩ (by decide)
